import Mathlib

/-!
Shallow embedding of the monitoring service in `src/monitoring/monitor.js`
(the health-aggregation and rolling-metrics engine): the in-memory
`metrics` object, the `collectMetrics` sampler, and the four JSON request
handlers (`POST /api/health-check`, `GET /api/metrics`,
`GET /api/metrics/:serverId`, `GET /api/logs`).

Time (`Date.now()`) is passed explicitly as a `Nat` argument.  JSON values
appearing in request bodies are modelled by the subset the handlers touch
(strings and integers).  The JS object `metrics.servers` is modelled as an
insertion-ordered association list, matching JS string-keyed object
semantics for the operations used (`obj[k]` read, `obj[k] = v` write,
`Object.keys`, `Object.values`).
-/

namespace Monitor

/-- JSON scalar values as they appear in the request bodies the handlers
read (the handlers only ever consume strings and numbers). -/
inductive JsonValue where
  | str (s : String)
  | num (n : Int)
deriving DecidableEq, Repr

/-- JS truthiness of `body.field`: `undefined` (`none`), the empty string
and the number 0 are falsy; every other modelled value is truthy. -/
def truthy : Option JsonValue → Bool
  | none => false
  | some (.str s) => s ≠ ""
  | some (.num n) => n ≠ 0

/-- JS string coercion of a value used as an object property key
(`metrics.servers[serverId]`). -/
def jsKey : JsonValue → String
  | .str s => s
  | .num n => toString n

/-- A JSON request body: field-name/value pairs
(`req.body` after `express.json()`). -/
def JsonBody := List (String × JsonValue)

/-- Reading a field of the request body (`req.body.f`);
`none` models `undefined`. -/
def bodyGet (body : JsonBody) (k : String) : Option JsonValue :=
  (body.find? (fun p => p.1 = k)).map Prod.snd

/-- One entry of `metrics.servers` — the per-service record written by
`app.post('/api/health-check')` (monitor.js lines 90–97). -/
structure ServerRecord where
  name : JsonValue
  status : JsonValue
  responseTime : Option JsonValue
  error : Option JsonValue
  lastChecked : Nat
  checksCount : Nat
deriving DecidableEq, Repr

/-- `metrics.systemStats` (monitor.js lines 14–19). -/
structure SystemStats where
  startTime : Nat
  totalRequests : Nat
  errorCount : Nat
  lastUpdate : Nat
deriving DecidableEq, Repr

/-- One entry of `metrics.history` — the `currentMetrics` object built by
`collectMetrics` (monitor.js lines 58–65). -/
structure Sample where
  timestamp : Nat
  uptime : Nat
  totalRequests : Nat
  errorCount : Nat
  servers : Nat
  healthyServers : Nat
deriving DecidableEq, Repr

/-- The whole in-memory `metrics` object (monitor.js lines 12–21). -/
structure Metrics where
  servers : List (String × ServerRecord)
  systemStats : SystemStats
  history : List Sample
deriving DecidableEq, Repr

/-- The initial `metrics` value at process start (monitor.js lines 12–21);
`start` is the `Date.now()` captured in `startTime`/`lastUpdate`. -/
def initMetrics (start : Nat) : Metrics :=
  { servers := []
    systemStats :=
      { startTime := start, totalRequests := 0, errorCount := 0, lastUpdate := start }
    history := [] }

/-- `metrics.servers[k]` — property read on the JS object. -/
def getServer (l : List (String × ServerRecord)) (k : String) : Option ServerRecord :=
  (l.find? (fun p => p.1 = k)).map Prod.snd

/-- `metrics.servers[k] = v` — property write on the JS object: replaces
the existing entry in place (object keys are unique) or appends a new one
(JS objects keep string keys in insertion order). -/
def setServer : List (String × ServerRecord) → String → ServerRecord →
    List (String × ServerRecord)
  | [], k, v => [(k, v)]
  | p :: t, k, v => if p.1 = k then (k, v) :: t else p :: setServer t k v

/-- `metrics.systemStats.totalRequests++` (first line of every handler). -/
def bumpRequests (m : Metrics) : Metrics :=
  { m with systemStats :=
      { m.systemStats with totalRequests := m.systemStats.totalRequests + 1 } }

/-- `metrics.systemStats.errorCount++`. -/
def bumpErrors (m : Metrics) : Metrics :=
  { m with systemStats :=
      { m.systemStats with errorCount := m.systemStats.errorCount + 1 } }

/-- The `currentMetrics` sample computed by `collectMetrics`
(monitor.js lines 58–65) from the current state at time `now`. -/
def sampleOf (m : Metrics) (now : Nat) : Sample :=
  { timestamp := now
    uptime := now - m.systemStats.startTime
    totalRequests := m.systemStats.totalRequests
    errorCount := m.systemStats.errorCount
    servers := m.servers.length
    healthyServers :=
      (m.servers.filter (fun p => p.2.status = JsonValue.str "healthy")).length }

/-- `history.push(s); if (history.length > 100) history.shift();`
(monitor.js lines 68–71). -/
def pushEvict (h : List Sample) (s : Sample) : List Sample :=
  let h1 := h ++ [s]
  if h1.length > 100 then h1.tail else h1

/-- `collectMetrics` (monitor.js lines 54–76): append a fresh sample to the
bounded history and refresh `lastUpdate`.  The `log(...)` call writes to
the external log sink and touches no `metrics` state. -/
def collectMetrics (m : Metrics) (now : Nat) : Metrics :=
  { m with
    history := pushEvict m.history (sampleOf m now)
    systemStats := { m.systemStats with lastUpdate := now } }

/-- Result of `POST /api/health-check`. -/
inductive PostResult where
  | badRequest (error : String)
  | ok (success : Bool) (message : String)
deriving DecidableEq, Repr

/-- `app.post('/api/health-check')` (monitor.js lines 79–107): bump the
request counter, destructure `serverId`, `serverName`, `status`,
`responseTime`, `error` from the body, reject with 400 when a required
field is falsy, otherwise overwrite `metrics.servers[serverId]` with a
fresh record whose `checksCount` is the previous count plus one. -/
def postHealthCheck (m : Metrics) (body : JsonBody) (now : Nat) :
    Metrics × PostResult :=
  let m1 := bumpRequests m
  let serverId := bodyGet body "serverId"
  let serverName := bodyGet body "serverName"
  let status := bodyGet body "status"
  if ¬ (truthy serverId ∧ truthy serverName ∧ truthy status) then
    (bumpErrors m1, .badRequest "Missing required fields")
  else
    let key := jsKey (serverId.getD (.str ""))
    let record : ServerRecord :=
      { name := serverName.getD (.str "")
        status := status.getD (.str "")
        responseTime := bodyGet body "responseTime"
        error := bodyGet body "error"
        lastChecked := now
        checksCount :=
          (match getServer m1.servers key with
            | some r => r.checksCount
            | none => 0) + 1 }
    ({ m1 with servers := setServer m1.servers key record },
      .ok true "Health check recorded")

/-- `arr.slice(-n)` for `n ≥ 0`: the last `min n arr.length` elements,
order preserved. -/
def jsSliceLast (n : Nat) (l : List α) : List α :=
  l.drop (l.length - n)

/-- `arr.slice(start)` for an arbitrary (possibly negative) integer
`start`, following the ECMAScript definition: a negative start counts
from the end, clamped at 0. -/
def jsSliceFrom (l : List α) (start : Int) : List α :=
  if start < 0 then
    l.drop (max ((l.length : Int) + start) 0).toNat
  else
    l.drop start.toNat

/-- The `current` object returned by `GET /api/metrics`
(monitor.js lines 115–126). -/
structure MetricsSnapshot where
  timestamp : Nat
  uptime : Nat
  totalRequests : Nat
  errorCount : Nat
  servers : List (String × ServerRecord)
  serverCount : Nat
  healthyCount : Nat
deriving DecidableEq, Repr

/-- `app.get('/api/metrics')` (monitor.js lines 110–127): bump the request
counter, run `collectMetrics`, and answer with the current snapshot plus
the last 20 history points (`metrics.history.slice(-20)`).  Returns the
post-state, the `current` object and the `history` array. -/
def getMetrics (m : Metrics) (now : Nat) :
    Metrics × MetricsSnapshot × List Sample :=
  let m1 := bumpRequests m
  let m2 := collectMetrics m1 now
  ( m2
  , { timestamp := now
      uptime := now - m2.systemStats.startTime
      totalRequests := m2.systemStats.totalRequests
      errorCount := m2.systemStats.errorCount
      servers := m2.servers
      serverCount := m2.servers.length
      healthyCount :=
        (m2.servers.filter (fun p => p.2.status = JsonValue.str "healthy")).length }
  , jsSliceLast 20 m2.history )

/-- One element of the derived `history` array returned by
`GET /api/metrics/:serverId` (monitor.js lines 144–148). -/
structure HistoryPoint where
  timestamp : Nat
  status : JsonValue
  responseTime : Option JsonValue
deriving DecidableEq, Repr

/-- The success payload of `GET /api/metrics/:serverId`
(monitor.js lines 141–149). -/
structure ServerDetail where
  serverId : String
  record : ServerRecord
  history : List HistoryPoint
deriving DecidableEq, Repr

/-- Result of `GET /api/metrics/:serverId`. -/
inductive DetailResult where
  | notFound (error : String)
  | found (detail : ServerDetail)
deriving DecidableEq, Repr

/-- `app.get('/api/metrics/:serverId')` (monitor.js lines 130–150): bump
the request counter; 404 (and bump the error counter) when the id is
unknown; otherwise answer with the stored record plus a derived history
that reuses the record's current `status` and `responseTime` for every
system-wide history timestamp, truncated to the last 20
(`metrics.history.map(...).slice(-20)`). -/
def getServerMetrics (m : Metrics) (serverId : String) :
    Metrics × DetailResult :=
  let m1 := bumpRequests m
  match getServer m1.servers serverId with
  | none => (bumpErrors m1, .notFound "Server not found")
  | some server =>
    ( m1
    , .found
        { serverId := serverId
          record := server
          history :=
            jsSliceLast 20 (m1.history.map (fun h =>
              { timestamp := h.timestamp
                status := server.status
                responseTime := server.responseTime })) } )

/-- One parsed line of the log file (monitor.js lines 35–40). -/
structure LogEvent where
  timestamp : Nat
  level : String
  message : String
deriving DecidableEq, Repr

/-- ECMAScript `StrWhiteSpaceChar`: WhiteSpace (TAB, VT, FF, SP, NBSP,
ZWNBSP and the Unicode space separators) and LineTerminator (LF, CR, LS,
PS) code points, skipped by `parseInt` before parsing. -/
def jsStrWhiteSpace (c : Char) : Bool :=
  c.toNat = 0x9 || c.toNat = 0xA || c.toNat = 0xB || c.toNat = 0xC ||
  c.toNat = 0xD || c.toNat = 0x20 || c.toNat = 0xA0 || c.toNat = 0x1680 ||
  (0x2000 ≤ c.toNat && c.toNat ≤ 0x200A) ||
  c.toNat = 0x2028 || c.toNat = 0x2029 || c.toNat = 0x202F ||
  c.toNat = 0x205F || c.toNat = 0x3000 || c.toNat = 0xFEFF

/-- A hexadecimal digit as accepted by `parseInt` with radix 16. -/
def jsIsHexDigit (c : Char) : Bool :=
  c.isDigit || ('a' ≤ c && c ≤ 'f') || ('A' ≤ c && c ≤ 'F')

/-- Numeric value of a hexadecimal digit. -/
def jsHexVal (c : Char) : Nat :=
  if c.isDigit then c.toNat - '0'.toNat
  else if 'a' ≤ c && c ≤ 'f' then c.toNat - 'a'.toNat + 10
  else c.toNat - 'A'.toNat + 10

/-- ECMAScript `parseInt(string)` with the radix argument omitted, as
called on line 156: skip leading `StrWhiteSpaceChar`s, read an optional
sign, then — if the remainder starts with `0x`/`0X` — strip that prefix
and parse the longest hexadecimal-digit prefix (radix 16), otherwise
parse the longest decimal-digit prefix (radix 10); an empty digit prefix
gives `NaN`, modelled as `none` (also used for `undefined` input). -/
def jsParseInt (s : String) : Option Int :=
  let cs := s.toList.dropWhile jsStrWhiteSpace
  let signed : Bool × List Char :=
    match cs with
    | '-' :: rest => (true, rest)
    | '+' :: rest => (false, rest)
    | _ => (false, cs)
  let hexed : Bool × List Char :=
    match signed.2 with
    | '0' :: 'x' :: rest => (true, rest)
    | '0' :: 'X' :: rest => (true, rest)
    | rest => (false, rest)
  if hexed.1 then
    let ds := hexed.2.takeWhile jsIsHexDigit
    if ds.isEmpty then none
    else
      let n : Nat := ds.foldl (fun acc c => acc * 16 + jsHexVal c) 0
      some (if signed.1 then -(n : Int) else (n : Int))
  else
    let ds := signed.2.takeWhile Char.isDigit
    if ds.isEmpty then none
    else
      let n : Nat := ds.foldl (fun acc c => acc * 10 + (c.toNat - '0'.toNat)) 0
      some (if signed.1 then -(n : Int) else (n : Int))

/-- `parseInt(req.query.limit) || 100` (monitor.js line 156): `NaN` and 0
fall back to the default 100. -/
def parseLimit (q : Option String) : Int :=
  match q.bind jsParseInt with
  | none => 100
  | some n => if n = 0 then 100 else n

/-- The `{logs, total, filtered}` payload of `GET /api/logs`. -/
structure LogsResponse where
  logs : List LogEvent
  total : Nat
  filtered : Bool
deriving DecidableEq, Repr

/-- The JS truthiness test `if (level)` on the optional query parameter
(`undefined` and the empty string are falsy). -/
def levelTruthy : Option String → Bool
  | none => false
  | some s => s ≠ ""

/-- `app.get('/api/logs')` (monitor.js lines 153–187), success path: the
parsed log file is `logs`; filter by `level` when that parameter is
truthy, then answer the last entries via `filteredLogs.slice(-limit)`
with `limit = parseInt(req.query.limit) || 100`. -/
def getLogs (logs : List LogEvent) (limitQ levelQ : Option String) :
    LogsResponse :=
  let limit := parseLimit limitQ
  let filteredLogs :=
    if levelTruthy levelQ then
      logs.filter (fun e => e.level = levelQ.getD "")
    else logs
  { logs := jsSliceFrom filteredLogs (-limit)
    total := filteredLogs.length
    filtered := levelTruthy levelQ }

/-- `n` successive `collectMetrics` invocations starting from `m`, the
`i`-th at time `i` (the sampler body; monitor.js line 488 drives it on a
timer, and `GET /api/metrics` on every read). -/
def iterCollect (m : Metrics) : Nat → Metrics
  | 0 => m
  | n + 1 => collectMetrics (iterCollect m n) n

/-- The Boolean form of the required-field validation of
`POST /api/health-check` (monitor.js line 84). -/
def validBody (body : JsonBody) : Bool :=
  truthy (bodyGet body "serverId") && truthy (bodyGet body "serverName") &&
    truthy (bodyGet body "status")

/-- The `metrics.servers` key a body writes to: its `serverId` value
coerced to a property key. -/
def bodyKey (body : JsonBody) : String :=
  jsKey ((bodyGet body "serverId").getD (.str ""))

/-- The check counter currently stored for `sid`
(`metrics.servers[sid]?.checksCount || 0`). -/
def checksOf (m : Metrics) (sid : String) : Nat :=
  match getServer m.servers sid with
  | some r => r.checksCount
  | none => 0

/-- Run a sequence of `POST /api/health-check` requests, each given as a
body together with its `Date.now()` value. -/
def runPosts (m : Metrics) : List (JsonBody × Nat) → Metrics
  | [] => m
  | e :: es => runPosts (postHealthCheck m e.1 e.2).1 es

/-- How many events of a trace are valid reports whose key is `sid`. -/
def countFor (sid : String) (es : List (JsonBody × Nat)) : Nat :=
  (es.filter (fun e => validBody e.1 && (bodyKey e.1 == sid))).length

/-! ### Concrete example values used to instantiate the theorems -/

/-- The request body of the spec's scenario, with the field names the
handler actually destructures (`serverId`, `serverName`). -/
def scenarioBody : JsonBody :=
  [("serverId", .str "github"), ("serverName", .str "GitHub MCP"),
   ("status", .str "healthy"), ("responseTime", .num 42)]

/-- The request body of the spec's scenario verbatim: identifier fields
named `serviceId` and `serviceName`. -/
def serviceNamedBody : JsonBody :=
  [("serviceId", .str "github"), ("serviceName", .str "GitHub MCP"),
   ("status", .str "healthy"), ("responseTime", .num 42)]

/-- A body missing the required `status` field. -/
def missingStatusBody : JsonBody :=
  [("serverId", .str "github"), ("serverName", .str "GitHub MCP")]

/-- A small trace: two valid reports for `github` interleaved with a
valid report for another id and an invalid report. -/
def traceEx : List (JsonBody × Nat) :=
  [ ([("serverId", .str "github"), ("serverName", .str "G"),
      ("status", .str "healthy")], 1)
  , ([("serverId", .str "other"), ("serverName", .str "O"),
      ("status", .str "unhealthy")], 2)
  , (missingStatusBody, 3)
  , ([("serverId", .str "github"), ("serverName", .str "G"),
      ("status", .str "error"), ("responseTime", .num 9)], 4) ]

/-- A concrete stored record. -/
def recEx : ServerRecord :=
  { name := .str "GitHub MCP", status := .str "healthy"
    responseTime := some (.num 42), error := none
    lastChecked := 7, checksCount := 3 }

/-- A concrete metrics state with one known server and one history point. -/
def mEx : Metrics :=
  { servers := [("github", recEx)]
    systemStats :=
      { startTime := 0, totalRequests := 4, errorCount := 1, lastUpdate := 6 }
    history :=
      [{ timestamp := 6, uptime := 6, totalRequests := 3, errorCount := 1,
         servers := 1, healthyServers := 1 }] }

/-- A one-element log file. -/
def logsEx : List LogEvent :=
  [{ timestamp := 1, level := "info", message := "boot" }]

/-! ### Helper lemmas -/

theorem getServer_cons (p : String × ServerRecord)
    (t : List (String × ServerRecord)) (k' : String) :
    getServer (p :: t) k' = if p.1 = k' then some p.2 else getServer t k' := by
  by_cases h : p.1 = k' <;> simp [getServer, h]

theorem getServer_setServer_self (l : List (String × ServerRecord))
    (k : String) (v : ServerRecord) : getServer (setServer l k v) k = some v := by
  induction l with
  | nil => simp [setServer, getServer]
  | cons p t ih =>
    simp only [setServer]
    by_cases h : p.1 = k
    · rw [if_pos h, getServer_cons]
      simp
    · rw [if_neg h, getServer_cons, if_neg h, ih]

theorem getServer_setServer_ne (l : List (String × ServerRecord))
    (k k' : String) (v : ServerRecord) (hne : k' ≠ k) :
    getServer (setServer l k v) k' = getServer l k' := by
  induction l with
  | nil =>
    simp only [setServer, getServer, List.find?]
    have : ¬ (k = k') := fun hk => hne hk.symm
    simp [this]
  | cons p t ih =>
    simp only [setServer]
    by_cases h : p.1 = k
    · have hkk : ¬ (k = k') := fun hk => hne hk.symm
      have hp : ¬ (p.1 = k') := by rw [h]; exact hkk
      rw [if_pos h, getServer_cons, getServer_cons, if_neg hkk, if_neg hp]
    · rw [if_neg h, getServer_cons, getServer_cons, ih]

theorem bumpRequests_servers (m : Metrics) : (bumpRequests m).servers = m.servers := rfl

theorem jsSliceLast_length (n : Nat) (l : List α) :
    (jsSliceLast n l).length = min n l.length := by
  simp [jsSliceLast]
  omega

theorem jsSliceLast_suffix (n : Nat) (l : List α) : jsSliceLast n l <:+ l :=
  List.drop_suffix _ l

theorem jsSliceLast_eq_reverse_take (n : Nat) (l : List α) :
    jsSliceLast n l = (l.reverse.take n).reverse := by
  rw [List.reverse_take]
  simp [jsSliceLast]

theorem jsSliceLast_append_one (n : Nat) (L : List α) (x : α) :
    jsSliceLast n (jsSliceLast n L ++ [x]) = jsSliceLast n (L ++ [x]) := by
  rw [jsSliceLast_eq_reverse_take, jsSliceLast_eq_reverse_take,
    jsSliceLast_eq_reverse_take]
  cases n with
  | zero => simp
  | succ m =>
    simp [List.take_succ_cons, List.take_take]

theorem pushEvict_eq_sliceLast (h : List Sample) (s : Sample)
    (hle : h.length ≤ 100) : pushEvict h s = jsSliceLast 100 (h ++ [s]) := by
  simp only [pushEvict, jsSliceLast]
  rcases Nat.lt_or_ge h.length 100 with hlt | hge
  · have hc : ¬ ((h ++ [s]).length > 100) := by simp; omega
    have h2 : (h ++ [s]).length - 100 = 0 := by simp; omega
    rw [if_neg hc, h2, List.drop_zero]
  · have h100 : h.length = 100 := le_antisymm hle hge
    have hc : (h ++ [s]).length > 100 := by simp [h100]
    have h2 : (h ++ [s]).length - 100 = 1 := by simp [h100]
    rw [if_pos hc, h2, List.drop_one]

theorem pushEvict_length (h : List Sample) (s : Sample) (hle : h.length ≤ 100) :
    (pushEvict h s).length = min (h.length + 1) 100 := by
  rw [pushEvict_eq_sliceLast h s hle, jsSliceLast_length]
  simp [List.length_append]
  omega

theorem collectMetrics_preserves (m : Metrics) (now : Nat) :
    (collectMetrics m now).servers = m.servers ∧
    (collectMetrics m now).systemStats.startTime = m.systemStats.startTime ∧
    (collectMetrics m now).systemStats.totalRequests = m.systemStats.totalRequests ∧
    (collectMetrics m now).systemStats.errorCount = m.systemStats.errorCount :=
  ⟨rfl, rfl, rfl, rfl⟩

theorem iterCollect_preserves (m : Metrics) (n : Nat) :
    (iterCollect m n).servers = m.servers ∧
    (iterCollect m n).systemStats.startTime = m.systemStats.startTime ∧
    (iterCollect m n).systemStats.totalRequests = m.systemStats.totalRequests ∧
    (iterCollect m n).systemStats.errorCount = m.systemStats.errorCount := by
  induction n with
  | zero => exact ⟨rfl, rfl, rfl, rfl⟩
  | succ n ih =>
    obtain ⟨h1, h2, h3, h4⟩ := ih
    exact ⟨by simp [iterCollect, collectMetrics, h1],
      by simp [iterCollect, collectMetrics, h2],
      by simp [iterCollect, collectMetrics, h3],
      by simp [iterCollect, collectMetrics, h4]⟩

theorem sampleOf_iterCollect (m : Metrics) (n t : Nat) :
    sampleOf (iterCollect m n) t = sampleOf m t := by
  obtain ⟨h1, h2, h3, h4⟩ := iterCollect_preserves m n
  simp [sampleOf, h1, h2, h3, h4]

theorem iterCollect_history (m : Metrics) (h0 : m.history = []) (n : Nat) :
    (iterCollect m n).history =
      jsSliceLast 100 ((List.range n).map (sampleOf m)) := by
  induction n with
  | zero => simp [iterCollect, h0, jsSliceLast]
  | succ n ih =>
    have hlen : ((iterCollect m n).history).length ≤ 100 := by
      rw [ih, jsSliceLast_length]
      omega
    calc (iterCollect m (n + 1)).history
        = pushEvict (iterCollect m n).history (sampleOf (iterCollect m n) n) := rfl
      _ = jsSliceLast 100 ((iterCollect m n).history ++ [sampleOf m n]) := by
          rw [pushEvict_eq_sliceLast _ _ hlen, sampleOf_iterCollect]
      _ = jsSliceLast 100 ((List.range n).map (sampleOf m) ++ [sampleOf m n]) := by
          rw [ih, jsSliceLast_append_one]
      _ = jsSliceLast 100 ((List.range (n + 1)).map (sampleOf m)) := by
          rw [List.range_succ, List.map_append]
          rfl

theorem checksOf_postHealthCheck (m : Metrics) (body : JsonBody) (now : Nat)
    (sid : String) :
    checksOf ((postHealthCheck m body now).1) sid =
      checksOf m sid +
        (if validBody body = true ∧ bodyKey body = sid then 1 else 0) := by
  simp only [bodyKey]
  by_cases hv : truthy (bodyGet body "serverId") ∧
      truthy (bodyGet body "serverName") ∧ truthy (bodyGet body "status")
  · have hvb : validBody body = true := by
      simp [validBody, hv.1, hv.2.1, hv.2.2]
    simp only [postHealthCheck, if_neg (not_not_intro hv), checksOf,
      bumpRequests_servers]
    by_cases hk : jsKey ((bodyGet body "serverId").getD (JsonValue.str "")) = sid
    · rw [if_pos ⟨hvb, hk⟩, ← hk, getServer_setServer_self]
    · rw [if_neg (fun hc => hk hc.2),
        getServer_setServer_ne _ _ _ _ (fun h => hk h.symm)]
      simp
  · have hvb : validBody body = false := by
      simp only [validBody]
      cases h1 : truthy (bodyGet body "serverId") <;>
        cases h2 : truthy (bodyGet body "serverName") <;>
        cases h3 : truthy (bodyGet body "status") <;> simp_all
    simp only [postHealthCheck, if_pos hv, checksOf]
    simp [bumpErrors, bumpRequests, hvb]

theorem checksOf_runPosts (m : Metrics) (sid : String)
    (es : List (JsonBody × Nat)) :
    checksOf (runPosts m es) sid = checksOf m sid + countFor sid es := by
  induction es generalizing m with
  | nil => simp [runPosts, countFor]
  | cons e t ih =>
    rw [runPosts, ih, checksOf_postHealthCheck]
    have hsplit : countFor sid (e :: t) =
        (if validBody e.1 = true ∧ bodyKey e.1 = sid then 1 else 0) +
          countFor sid t := by
      by_cases hc : validBody e.1 = true ∧ bodyKey e.1 = sid
      · have hb : (validBody e.1 && (bodyKey e.1 == sid)) = true := by
          simp [hc.1, hc.2]
        simp [countFor, List.filter_cons, hb, hc]
        omega
      · have hb : (validBody e.1 && (bodyKey e.1 == sid)) = false := by
          cases h1 : validBody e.1 <;> cases h2 : (bodyKey e.1 == sid) <;>
            simp_all
        simp [countFor, List.filter_cons, hb, hc]
    rw [hsplit]
    omega

theorem bumpRequests_history (m : Metrics) : (bumpRequests m).history = m.history := rfl

theorem getMetrics_state (m : Metrics) (now : Nat) :
    (getMetrics m now).1 = collectMetrics (bumpRequests m) now := rfl

theorem postHealthCheck_invalid (m : Metrics) (body : JsonBody) (now : Nat)
    (hv : ¬ (truthy (bodyGet body "serverId") ∧ truthy (bodyGet body "serverName") ∧
      truthy (bodyGet body "status"))) :
    postHealthCheck m body now =
      (bumpErrors (bumpRequests m), .badRequest "Missing required fields") := by
  simp only [postHealthCheck, if_pos hv]

theorem postHealthCheck_valid (m : Metrics) (body : JsonBody) (now : Nat)
    (hv : truthy (bodyGet body "serverId") ∧ truthy (bodyGet body "serverName") ∧
      truthy (bodyGet body "status")) :
    (postHealthCheck m body now).2 = PostResult.ok true "Health check recorded" ∧
    (postHealthCheck m body now).1.servers =
      setServer m.servers (bodyKey body)
        { name := (bodyGet body "serverName").getD (JsonValue.str "")
          status := (bodyGet body "status").getD (JsonValue.str "")
          responseTime := bodyGet body "responseTime"
          error := bodyGet body "error"
          lastChecked := now
          checksCount := checksOf m (bodyKey body) + 1 } ∧
    (postHealthCheck m body now).1.systemStats = (bumpRequests m).systemStats ∧
    (postHealthCheck m body now).1.history = m.history := by
  simp only [postHealthCheck, if_neg (not_not_intro hv), bodyKey, checksOf,
    bumpRequests_servers]
  exact ⟨trivial, trivial, trivial, rfl⟩

theorem getServerMetrics_notFound (m : Metrics) (sid : String)
    (h : getServer m.servers sid = none) :
    getServerMetrics m sid =
      (bumpErrors (bumpRequests m), .notFound "Server not found") := by
  simp only [getServerMetrics, bumpRequests_servers, h]

theorem getServerMetrics_found (m : Metrics) (sid : String) (server : ServerRecord)
    (h : getServer m.servers sid = some server) :
    getServerMetrics m sid =
      (bumpRequests m,
        .found
          { serverId := sid
            record := server
            history := jsSliceLast 20 (m.history.map (fun hh =>
              { timestamp := hh.timestamp
                status := server.status
                responseTime := server.responseTime })) }) := by
  simp only [getServerMetrics, bumpRequests_servers, bumpRequests_history, h]

theorem jsSliceFrom_neg_eq_sliceLast (l : List α) (n : Nat) (hn : 0 < n) :
    jsSliceFrom l (-(n : Int)) = jsSliceLast n l := by
  simp only [jsSliceFrom, jsSliceLast]
  rw [if_pos (by omega : -(n : Int) < 0)]
  congr 1
  omega

theorem parseLimit_default (q : Option String)
    (h : q.bind jsParseInt = none ∨ q.bind jsParseInt = some 0) :
    parseLimit q = 100 := by
  rcases h with h | h <;> simp [parseLimit, h]

/-! ### Claims -/

/-- C1, counterexample: the claim's request body — identifier fields named
`serviceId` and `serviceName` — is rejected by `POST /api/health-check`
with 400 `Missing required fields` and creates no record for `github`;
it is not accepted with 200. -/
theorem c1_counterexample :
    (postHealthCheck (initMetrics 0) serviceNamedBody 5).2 =
      PostResult.badRequest "Missing required fields" ∧
    getServer ((postHealthCheck (initMetrics 0) serviceNamedBody 5).1).servers
      "github" = none := by
  decide

/-- C1, amended: the request-body field names recognized by the handler are
`serverId` and `serverName`.  Submitting `{serverId:"github",
serverName:"GitHub MCP", status:"healthy", responseTime:42}` against any
state in which `github` is unseen is accepted with `{success:true}`, and a
subsequent `GET /api/metrics/github` returns a record with
`checksCount = 1`, status `healthy` and response time 42. -/
theorem c1_theorem (m : Metrics) (now : Nat)
    (h : getServer m.servers "github" = none) :
    (postHealthCheck m scenarioBody now).2 =
      PostResult.ok true "Health check recorded" ∧
    ∃ d, (getServerMetrics (postHealthCheck m scenarioBody now).1 "github").2 =
        DetailResult.found d ∧
      d.record.checksCount = 1 ∧
      d.record.status = JsonValue.str "healthy" ∧
      d.record.responseTime = some (JsonValue.num 42) := by
  have hv : truthy (bodyGet scenarioBody "serverId") ∧
      truthy (bodyGet scenarioBody "serverName") ∧
      truthy (bodyGet scenarioBody "status") := by decide
  obtain ⟨hr, hs, _, _⟩ := postHealthCheck_valid m scenarioBody now hv
  have hkey : bodyKey scenarioBody = "github" := rfl
  have hck : checksOf m (bodyKey scenarioBody) = 0 := by
    rw [hkey]
    simp [checksOf, h]
  refine ⟨hr, ?_⟩
  have hget : getServer ((postHealthCheck m scenarioBody now).1).servers "github" =
      some { name := (bodyGet scenarioBody "serverName").getD (JsonValue.str "")
             status := (bodyGet scenarioBody "status").getD (JsonValue.str "")
             responseTime := bodyGet scenarioBody "responseTime"
             error := bodyGet scenarioBody "error"
             lastChecked := now
             checksCount := checksOf m (bodyKey scenarioBody) + 1 } := by
    rw [hs, ← hkey, getServer_setServer_self]
  rw [getServerMetrics_found _ _ _ hget]
  refine ⟨_, rfl, ?_, rfl, rfl⟩
  simp [hck]

/-- C1, witness: the amended claim at the initial state. -/
theorem c1_witness :
    getServer (initMetrics 0).servers "github" = none ∧
    ((postHealthCheck (initMetrics 0) scenarioBody 5).2 =
        PostResult.ok true "Health check recorded" ∧
      ∃ d, (getServerMetrics
          (postHealthCheck (initMetrics 0) scenarioBody 5).1 "github").2 =
          DetailResult.found d ∧
        d.record.checksCount = 1 ∧
        d.record.status = JsonValue.str "healthy" ∧
        d.record.responseTime = some (JsonValue.num 42)) :=
  ⟨rfl, c1_theorem (initMetrics 0) 5 rfl⟩

/-- C2, counterexample: a query naming a previously unseen key creates no
record — the table stays empty and the query answers 404 — and a record
created by a first valid report carries the reported status (`healthy`),
not `unknown`. -/
theorem c2_counterexample :
    (getServerMetrics (initMetrics 0) "ghost").1.servers = [] ∧
    (getServerMetrics (initMetrics 0) "ghost").2 =
      DetailResult.notFound "Server not found" ∧
    (getServer ((postHealthCheck (initMetrics 0)
        [("serverId", JsonValue.str "svc"), ("serverName", JsonValue.str "S"),
         ("status", JsonValue.str "healthy")] 7).1).servers "svc").map
      ServerRecord.status = some (JsonValue.str "healthy") := by
  decide

/-- C2, amended: a ServiceRecord is created only by the first valid report
naming its key, with the reported status (not `unknown`) and check counter
1; a query naming a previously unseen key returns 404 and leaves the
table unchanged. -/
theorem c2_theorem (m : Metrics) (sid : String)
    (h : getServer m.servers sid = none) :
    (getServerMetrics m sid).1.servers = m.servers ∧
    (getServerMetrics m sid).2 = DetailResult.notFound "Server not found" ∧
    (∀ (body : JsonBody) (now : Nat),
      truthy (bodyGet body "serverId") ∧ truthy (bodyGet body "serverName") ∧
        truthy (bodyGet body "status") →
      bodyKey body = sid →
      getServer ((postHealthCheck m body now).1).servers sid =
        some { name := (bodyGet body "serverName").getD (JsonValue.str "")
               status := (bodyGet body "status").getD (JsonValue.str "")
               responseTime := bodyGet body "responseTime"
               error := bodyGet body "error"
               lastChecked := now
               checksCount := 1 }) := by
  refine ⟨?_, ?_, ?_⟩
  · rw [getServerMetrics_notFound m sid h]
    rfl
  · rw [getServerMetrics_notFound m sid h]
  · intro body now hv hkey
    obtain ⟨_, hs, _, _⟩ := postHealthCheck_valid m body now hv
    have hck : checksOf m (bodyKey body) = 0 := by
      rw [hkey]
      simp [checksOf, h]
    rw [hs, ← hkey, getServer_setServer_self, hck]

/-- C2, witness: the amended claim at the initial state and key `github`. -/
theorem c2_witness :
    getServer (initMetrics 0).servers "github" = none ∧
    ((getServerMetrics (initMetrics 0) "github").1.servers =
        (initMetrics 0).servers ∧
      (getServerMetrics (initMetrics 0) "github").2 =
        DetailResult.notFound "Server not found" ∧
      (∀ (body : JsonBody) (now : Nat),
        truthy (bodyGet body "serverId") ∧ truthy (bodyGet body "serverName") ∧
          truthy (bodyGet body "status") →
        bodyKey body = "github" →
        getServer ((postHealthCheck (initMetrics 0) body now).1).servers "github" =
          some { name := (bodyGet body "serverName").getD (JsonValue.str "")
                 status := (bodyGet body "status").getD (JsonValue.str "")
                 responseTime := bodyGet body "responseTime"
                 error := bodyGet body "error"
                 lastChecked := now
                 checksCount := 1 })) :=
  ⟨rfl, c2_theorem (initMetrics 0) "github" rfl⟩

/-- C3, counterexample: a report missing `status` is rejected with 400, but
the resulting state is not the original state with only the error counter
incremented — the request counter moved too, so "no mutation except the
error counter" fails. -/
theorem c3_counterexample :
    (postHealthCheck (initMetrics 0) missingStatusBody 0).2 =
      PostResult.badRequest "Missing required fields" ∧
    (postHealthCheck (initMetrics 0) missingStatusBody 0).1 ≠
      bumpErrors (initMetrics 0) := by
  decide

/-- C3, amended: when `serverId`, `serverName` or `status` is missing or
empty, `POST /api/health-check` returns 400 `Missing required fields`, no
record is created or modified, history is untouched, and the only
mutations are the global error counter and the global request counter,
each incremented by exactly 1. -/
theorem c3_theorem (m : Metrics) (body : JsonBody) (now : Nat)
    (h : ¬ (truthy (bodyGet body "serverId") ∧ truthy (bodyGet body "serverName") ∧
      truthy (bodyGet body "status"))) :
    (postHealthCheck m body now).2 = PostResult.badRequest "Missing required fields" ∧
    (postHealthCheck m body now).1 = bumpErrors (bumpRequests m) ∧
    (postHealthCheck m body now).1.servers = m.servers ∧
    (postHealthCheck m body now).1.history = m.history ∧
    (postHealthCheck m body now).1.systemStats.errorCount =
      m.systemStats.errorCount + 1 ∧
    (postHealthCheck m body now).1.systemStats.totalRequests =
      m.systemStats.totalRequests + 1 := by
  rw [postHealthCheck_invalid m body now h]
  exact ⟨rfl, rfl, rfl, rfl, rfl, rfl⟩

/-- C3, witness: the amended claim at the initial state with the body
missing `status`. -/
theorem c3_witness :
    (¬ (truthy (bodyGet missingStatusBody "serverId") ∧
        truthy (bodyGet missingStatusBody "serverName") ∧
        truthy (bodyGet missingStatusBody "status"))) ∧
    (postHealthCheck (initMetrics 0) missingStatusBody 0).1 =
      bumpErrors (bumpRequests (initMetrics 0)) :=
  ⟨by decide, (c3_theorem (initMetrics 0) missingStatusBody 0 (by decide)).2.1⟩

/-- C4: the retained history never exceeds 100 entries; after 150
successive `sample()` invocations from an empty history the retained
history is exactly the 100 most recent samples in chronological order;
and `GET /api/metrics` returns at most the 20 most recent samples
oldest-first (a suffix of the retained history, of length
`min 20 capacity`). -/
theorem c4_theorem :
    (∀ (m : Metrics) (now : Nat), m.history.length ≤ 100 →
      (collectMetrics m now).history.length ≤ 100) ∧
    (∀ m : Metrics, m.history = [] →
      (iterCollect m 150).history =
        ((List.range 150).map (sampleOf m)).drop 50 ∧
      (iterCollect m 150).history.length = 100) ∧
    (∀ (m : Metrics) (now : Nat),
      (getMetrics m now).2.2.length = min 20 (getMetrics m now).1.history.length ∧
      (getMetrics m now).2.2 <:+ (getMetrics m now).1.history) := by
  refine ⟨?_, ?_, ?_⟩
  · intro m now h
    simp only [collectMetrics]
    rw [pushEvict_length _ _ h]
    omega
  · intro m h0
    have hit := iterCollect_history m h0 150
    constructor
    · rw [hit]
      unfold jsSliceLast
      norm_num
    · rw [hit, jsSliceLast_length]
      simp
  · intro m now
    exact ⟨jsSliceLast_length 20 _, jsSliceLast_suffix 20 _⟩

/-- C4, witness: the 150-sample scenario from the initial state. -/
theorem c4_witness :
    (initMetrics 0).history = [] ∧
    (iterCollect (initMetrics 0) 150).history.length = 100 :=
  ⟨rfl, (c4_theorem.2.1 (initMetrics 0) rfl).2⟩

/-- C5: for a fixed service id starting unseen, after any trace of posts
the stored check counter equals the number of valid reports naming that
id — interleaved reports for other ids or invalid reports do not affect
it — and a single post never decreases the counter. -/
theorem c5_theorem :
    (∀ (m : Metrics) (sid : String) (es : List (JsonBody × Nat)),
      getServer m.servers sid = none →
      checksOf (runPosts m es) sid = countFor sid es) ∧
    (∀ (m : Metrics) (sid : String) (body : JsonBody) (now : Nat),
      checksOf m sid ≤ checksOf ((postHealthCheck m body now).1) sid) := by
  constructor
  · intro m sid es h
    rw [checksOf_runPosts]
    simp [checksOf, h]
  · intro m sid body now
    rw [checksOf_postHealthCheck]
    omega

/-- C5, witness: a concrete trace with two valid reports for `github`, one
valid report for another id and one invalid report gives counter 2. -/
theorem c5_witness :
    getServer (initMetrics 0).servers "github" = none ∧
    checksOf (runPosts (initMetrics 0) traceEx) "github" = countFor "github" traceEx ∧
    countFor "github" traceEx = 2 :=
  ⟨rfl, c5_theorem.1 (initMetrics 0) "github" traceEx rfl, by decide⟩

/-- C6: every `GET /api/metrics` triggers an implicit sample: below
capacity the history grows by exactly the freshly appended sample; at
capacity 100 it stays at 100; and the read changes no server record and
no error counter, only the request counter (plus the appended sample). -/
theorem c6_theorem :
    (∀ (m : Metrics) (now : Nat), m.history.length < 100 →
      (getMetrics m now).1.history =
        m.history ++ [sampleOf (bumpRequests m) now] ∧
      (getMetrics m now).1.history.length = m.history.length + 1) ∧
    (∀ (m : Metrics) (now : Nat), m.history.length = 100 →
      (getMetrics m now).1.history.length = 100) ∧
    (∀ (m : Metrics) (now : Nat),
      (getMetrics m now).1.servers = m.servers ∧
      (getMetrics m now).1.systemStats.errorCount = m.systemStats.errorCount ∧
      (getMetrics m now).1.systemStats.totalRequests =
        m.systemStats.totalRequests + 1) := by
  refine ⟨?_, ?_, ?_⟩
  · intro m now h
    have hpush : (getMetrics m now).1.history =
        pushEvict m.history (sampleOf (bumpRequests m) now) := rfl
    constructor
    · rw [hpush]
      simp only [pushEvict]
      rw [if_neg (by simp [List.length_append]; omega)]
    · rw [hpush, pushEvict_length _ _ (le_of_lt h)]
      omega
  · intro m now h
    have hpush : (getMetrics m now).1.history =
        pushEvict m.history (sampleOf (bumpRequests m) now) := rfl
    rw [hpush, pushEvict_length _ _ (le_of_eq h)]
    omega
  · intro m now
    exact ⟨rfl, rfl, rfl⟩

/-- C6, witness: a read at the initial state grows history from 0 to 1. -/
theorem c6_witness :
    (initMetrics 0).history.length < 100 ∧
    (getMetrics (initMetrics 0) 3).1.history.length =
      (initMetrics 0).history.length + 1 :=
  ⟨by decide, (c6_theorem.1 (initMetrics 0) 3 (by decide)).2⟩

/-- C7: in every snapshot returned by `GET /api/metrics`, `healthyCount`
is at most `serverCount`, and the healthy count credits exactly the
services whose stored status equals the string `healthy`. -/
theorem c7_theorem (m : Metrics) (now : Nat) :
    (getMetrics m now).2.1.healthyCount ≤ (getMetrics m now).2.1.serverCount ∧
    (getMetrics m now).2.1.healthyCount =
      (getMetrics m now).2.1.servers.countP
        (fun p => decide (p.2.status = JsonValue.str "healthy")) := by
  constructor
  · exact List.length_filter_le _ _
  · exact (List.countP_eq_length_filter ..).symm

/-- C8: querying `GET /api/metrics/:serverId` for an id never seen by a
successful report answers 404 with `{error:"Server not found"}` and
leaves the server table (and history) unchanged. -/
theorem c8_theorem (m : Metrics) (sid : String)
    (h : getServer m.servers sid = none) :
    (getServerMetrics m sid).2 = DetailResult.notFound "Server not found" ∧
    (getServerMetrics m sid).1.servers = m.servers ∧
    (getServerMetrics m sid).1.history = m.history := by
  rw [getServerMetrics_notFound m sid h]
  exact ⟨rfl, rfl, rfl⟩

/-- C8, witness: the not-found query at the initial state. -/
theorem c8_witness :
    getServer (initMetrics 0).servers "unknown-id" = none ∧
    (getServerMetrics (initMetrics 0) "unknown-id").2 =
      DetailResult.notFound "Server not found" :=
  ⟨rfl, (c8_theorem (initMetrics 0) "unknown-id" rfl).1⟩

/-- C9: for a known id, the detail view returns the stored record, and its
derived history assigns the record's current status and response time to
every returned point; the returned points are the at most 20 most recent
system-wide history timestamps. -/
theorem c9_theorem (m : Metrics) (sid : String) (server : ServerRecord)
    (h : getServer m.servers sid = some server) :
    ∃ d, (getServerMetrics m sid).2 = DetailResult.found d ∧
      d.record = server ∧
      d.history.length ≤ 20 ∧
      (∀ p ∈ d.history,
        p.status = server.status ∧ p.responseTime = server.responseTime) ∧
      d.history.map (fun p => p.timestamp) =
        jsSliceLast 20 (m.history.map (fun s => s.timestamp)) := by
  rw [getServerMetrics_found m sid server h]
  refine ⟨_, rfl, rfl, ?_, ?_, ?_⟩
  · rw [jsSliceLast_length]
    omega
  · intro p hp
    have hp' := (jsSliceLast_suffix 20 _).subset hp
    obtain ⟨s, _, rfl⟩ := List.mem_map.mp hp'
    exact ⟨rfl, rfl⟩
  · simp only [jsSliceLast]
    rw [List.map_drop, List.map_map]
    simp only [List.length_map]
    rfl

/-- C9, witness: the detail view at a concrete one-server state. -/
theorem c9_witness :
    getServer mEx.servers "github" = some recEx ∧
    ∃ d, (getServerMetrics mEx "github").2 = DetailResult.found d ∧
      d.record = recEx ∧
      d.history.length ≤ 20 ∧
      (∀ p ∈ d.history,
        p.status = recEx.status ∧ p.responseTime = recEx.responseTime) ∧
      d.history.map (fun p => p.timestamp) =
        jsSliceLast 20 (mEx.history.map (fun s => s.timestamp)) :=
  ⟨rfl, c9_theorem mEx "github" recEx rfl⟩

/-- C10, counterexample: a `limit` of `-1` parses to a number (so it does
not fall back to 100), and `slice(-limit)` then returns zero entries even
though a log entry exists — requesting zero entries through the limit
parameter is possible. -/
theorem c10_counterexample :
    parseLimit (some "-1") = -1 ∧
    (getLogs logsEx (some "-1") none).logs = [] ∧
    logsEx ≠ [] := by
  decide

/-- C10, amended: a `limit` that parses to 0 or is not a number falls back
to the default 100, so the response holds the last `min 100 available`
entries — zero entries cannot be requested through a zero or non-numeric
limit (a negative limit, however, can yield zero entries). -/
theorem c10_theorem (logs : List LogEvent) (q : Option String)
    (h : q.bind jsParseInt = none ∨ q.bind jsParseInt = some 0) :
    (getLogs logs q none).logs = jsSliceLast 100 logs ∧
    (getLogs logs q none).logs.length = min 100 logs.length ∧
    (logs ≠ [] → (getLogs logs q none).logs ≠ []) := by
  have hl : parseLimit q = 100 := parseLimit_default q h
  have hmain : (getLogs logs q none).logs = jsSliceLast 100 logs := by
    simp only [getLogs, levelTruthy, hl, if_neg]
    exact jsSliceFrom_neg_eq_sliceLast logs 100 (by omega)
  refine ⟨hmain, ?_, ?_⟩
  · rw [hmain, jsSliceLast_length]
  · intro hne hcontra
    rw [hmain] at hcontra
    have hlen : (jsSliceLast 100 logs).length = 0 := by rw [hcontra]; rfl
    rw [jsSliceLast_length] at hlen
    have hz : logs.length = 0 := by omega
    exact hne (List.length_eq_zero.mp hz)

/-- C10, witness: `limit=0` on a one-entry log returns that entry, not
zero entries. -/
theorem c10_witness :
    ((some "0" : Option String).bind jsParseInt = none ∨
      (some "0" : Option String).bind jsParseInt = some 0) ∧
    (getLogs logsEx (some "0") none).logs = jsSliceLast 100 logsEx :=
  ⟨Or.inr (by decide), (c10_theorem logsEx (some "0") (Or.inr (by decide))).1⟩

end Monitor
